import Mathlib

/-!
Shallow embedding of the scheduler/store/collector core of
`social_media_analytics_standalone`, together with theorems settling the
frozen claims about it.

Conventions of the embedding:
* wall-clock instants are integers (seconds since the epoch); Python's
  `timedelta(minutes=m)` is `60 * m` seconds;
* Python dicts are association lists in insertion order, with
  replace-in-place on key collision (`d[k] = v`);
* SQLite tables are lists of row records in insertion order together with
  the next `AUTOINCREMENT` id; `cursor.lastrowid` is the id handed to the
  row just inserted.
-/

namespace SocialMediaAnalytics

/-! ## Job scheduler (src/utils/job_manager.py) -/

/-- One monitoring job, mirroring the `MonitoringJob` dataclass.
`next_run` is never `None` after construction (`__post_init__` defaults it
to `datetime.now()`), so it is total here; `add_job`, the only creation
site, passes the creation instant. -/
structure MonitoringJob where
  id : String
  platform : String
  entity_id : Int
  entity_name : String
  interval_minutes : Int
  last_run : Option Int
  next_run : Int
  is_active : Bool
  total_runs : Nat
  last_error : Option String
  metadata : List (String × String)
  deriving Repr, DecidableEq

/-- The session-state jobs dict `st.session_state.monitoring_jobs`:
an insertion-ordered association list keyed by job id. -/
abbrev Jobs := List (String × MonitoringJob)

/-- Python's `job_id in jobs` membership test on the dict. -/
def hasKey (jobs : Jobs) (k : String) : Bool :=
  jobs.any (fun kv => kv.1 == k)

/-- Python's `jobs[k] = v`: replace in place when the key is present,
append otherwise (insertion-ordered dict semantics). -/
def dictInsert (jobs : Jobs) (k : String) (v : MonitoringJob) : Jobs :=
  if hasKey jobs k then
    jobs.map (fun kv => if kv.1 == k then (k, v) else kv)
  else
    jobs ++ [(k, v)]

/-- `JobManager.get_job`: `jobs.get(job_id)`. -/
def get_job (jobs : Jobs) (k : String) : Option MonitoringJob :=
  (jobs.find? (fun kv => kv.1 == k)).map Prod.snd

/-- `JobManager.get_all_jobs`: `list(jobs.values())`. -/
def get_all_jobs (jobs : Jobs) : List MonitoringJob :=
  jobs.map Prod.snd

/-- The job id generated by `add_job`:
`f"{platform}_{entity_id}_{int(time.time())}"`. -/
def mkJobId (platform : String) (entity_id : Int) (now : Int) : String :=
  platform ++ "_" ++ toString entity_id ++ "_" ++ toString now

/-- `JobManager.add_job`: build the id from the platform, entity id and
the whole-second clock, create the job with `next_run = now`,
`is_active = True`, `total_runs = 0`, no last run and no error, and store
it under its id. Returns the id together with the new dict. -/
def add_job (jobs : Jobs) (platform : String) (entity_id : Int)
    (entity_name : String) (interval_minutes : Int)
    (metadata : List (String × String)) (now : Int) : String × Jobs :=
  let job_id := mkJobId platform entity_id now
  let job : MonitoringJob :=
    { id := job_id
      platform := platform
      entity_id := entity_id
      entity_name := entity_name
      interval_minutes := interval_minutes
      last_run := none
      next_run := now
      is_active := true
      total_runs := 0
      last_error := none
      metadata := metadata }
  (job_id, dictInsert jobs job_id job)

/-- `JobManager.pause_job`: if the id is present, set `is_active = False`
(no-op otherwise). -/
def pause_job (jobs : Jobs) (job_id : String) : Jobs :=
  jobs.map (fun kv =>
    if kv.1 == job_id then (kv.1, { kv.2 with is_active := false }) else kv)

/-- `JobManager.resume_job`: if the id is present, set `is_active = True`
and reset `next_run = datetime.now()` (no-op otherwise). -/
def resume_job (jobs : Jobs) (job_id : String) (now : Int) : Jobs :=
  jobs.map (fun kv =>
    if kv.1 == job_id then
      (kv.1, { kv.2 with is_active := true, next_run := now })
    else kv)

/-- `JobManager.get_jobs_due_for_run`: the jobs with
`is_active and next_run <= now`, optionally filtered by platform. -/
def get_jobs_due_for_run (jobs : Jobs) (now : Int)
    (platform : Option String) : List MonitoringJob :=
  let due := (get_all_jobs jobs).filter
    (fun j => j.is_active && decide (j.next_run ≤ now))
  match platform with
  | some p => due.filter (fun j => j.platform == p)
  | none => due

/-- `JobManager.mark_job_run`: if the id is present, set
`last_run = now`, `next_run = now + timedelta(minutes=interval_minutes)`,
increment `total_runs`, and set `last_error` to `None` on success and to
the given error otherwise. (The source calls `datetime.now()` twice in
immediate succession; both reads are the one instant `now` here.) -/
def mark_job_run (jobs : Jobs) (job_id : String) (success : Bool)
    (error : Option String) (now : Int) : Jobs :=
  jobs.map (fun kv =>
    if kv.1 == job_id then
      (kv.1,
        { kv.2 with
          last_run := some now
          next_run := now + 60 * kv.2.interval_minutes
          total_runs := kv.2.total_runs + 1
          last_error := if success then none else error })
    else kv)

/-- The `jobs_by_platform` sub-dict of the statistics snapshot: the four
hard-coded platform buckets. -/
structure PlatformCounts where
  twitch : Nat
  twitter : Nat
  youtube : Nat
  reddit : Nat
  deriving Repr, DecidableEq

/-- The dict returned by `JobManager.get_job_statistics`. -/
structure JobStatistics where
  total_jobs : Nat
  active_jobs : Nat
  paused_jobs : Nat
  jobs_by_platform : PlatformCounts
  total_runs : Nat
  jobs_with_errors : Nat
  deriving Repr, DecidableEq

/-- `JobManager.get_job_statistics`: a pure aggregate recomputed from
`get_all_jobs()` on every call. -/
def get_job_statistics (jobs : Jobs) : JobStatistics :=
  let js := get_all_jobs jobs
  { total_jobs := js.length
    active_jobs := (js.filter (fun j => j.is_active)).length
    paused_jobs := (js.filter (fun j => !j.is_active)).length
    jobs_by_platform :=
      { twitch := (js.filter (fun j => j.platform == "twitch")).length
        twitter := (js.filter (fun j => j.platform == "twitter")).length
        youtube := (js.filter (fun j => j.platform == "youtube")).length
        reddit := (js.filter (fun j => j.platform == "reddit")).length }
    total_runs := (js.map (fun j => j.total_runs)).sum
    jobs_with_errors := (js.filter (fun j => j.last_error.isSome)).length }

/-- A platform string is one of the four bucketed by
`get_job_statistics`. -/
def knownPlatform (j : MonitoringJob) : Bool :=
  j.platform == "twitch" || j.platform == "twitter" ||
  j.platform == "youtube" || j.platform == "reddit"

/-! ## Twitch store
(src/database/session_db.py, src/src/platforms/twitch_integration_enhanced.py)

`SessionDatabase.__init__` opens `sqlite3.connect(':memory:')` and creates
the tables, but never issues `PRAGMA foreign_keys = ON`. In Python's
`sqlite3` module foreign-key enforcement is off by default, so the
`ON DELETE CASCADE` clauses declared on `twitch_stream_records` and
`twitch_chat_messages` are not enforced at runtime: a `DELETE` against the
parent table removes only the parent rows. The embedding below reflects
that runtime behaviour. -/

/-- A row of `twitch_channels`:
`(id AUTOINCREMENT, channel_name UNIQUE NOT NULL, added_at, is_monitoring)`. -/
structure TwitchChannelRow where
  id : Nat
  channel_name : String
  added_at : Int
  is_monitoring : Bool
  deriving Repr, DecidableEq

/-- A row of `twitch_stream_records` (foreign key `channel_id`). -/
structure StreamRecordRow where
  id : Nat
  channel_id : Nat
  timestamp : Int
  is_live : Bool
  title : Option String
  game_name : Option String
  viewer_count : Int
  started_at : Option String
  chat_message_count : Int
  deriving Repr, DecidableEq

/-- A row of `twitch_chat_messages` (foreign key `record_id`). -/
structure ChatMessageRow where
  id : Nat
  record_id : Nat
  username : String
  message : String
  timestamp : String
  deriving Repr, DecidableEq

/-- The three Twitch tables of the session database together with their
`AUTOINCREMENT` counters. -/
structure TwitchStore where
  channels : List TwitchChannelRow
  stream_records : List StreamRecordRow
  chat_messages : List ChatMessageRow
  next_channel_id : Nat
  next_record_id : Nat
  next_chat_id : Nat
  deriving Repr, DecidableEq

/-- The empty store right after `SessionDatabase._create_tables`
(SQLite `AUTOINCREMENT` starts at 1). -/
def emptyTwitchStore : TwitchStore :=
  { channels := []
    stream_records := []
    chat_messages := []
    next_channel_id := 1
    next_record_id := 1
    next_chat_id := 1 }

/-- `TwitchDatabase.add_channel`: `SELECT id FROM twitch_channels WHERE
channel_name = ?`; return the existing id when found, else `INSERT` the
name (with default `added_at`/`is_monitoring`) and return
`cursor.lastrowid`. SQLite compares `TEXT` with binary equality, so the
lookup is exact, case-sensitive string equality. -/
def add_channel (s : TwitchStore) (channel_name : String) (now : Int) :
    Nat × TwitchStore :=
  match s.channels.find? (fun c => c.channel_name == channel_name) with
  | some c => (c.id, s)
  | none =>
      (s.next_channel_id,
        { s with
          channels := s.channels ++
            [{ id := s.next_channel_id
               channel_name := channel_name
               added_at := now
               is_monitoring := false }]
          next_channel_id := s.next_channel_id + 1 })

/-- `TwitchDatabase.delete_channel`: `DELETE FROM twitch_channels WHERE
id = ?`. With foreign-key enforcement off (no `PRAGMA foreign_keys = ON`
anywhere in the repository) the declared cascades do not fire, so the
dependent `twitch_stream_records` and `twitch_chat_messages` rows are left
in place. -/
def delete_channel (s : TwitchStore) (channel_id : Nat) : TwitchStore :=
  { s with channels := s.channels.filter (fun c => !(c.id == channel_id)) }

/-- `TwitchDatabase.add_stream_record`: unconditional `INSERT` returning
`cursor.lastrowid`. -/
def add_stream_record (s : TwitchStore) (channel_id : Nat) (is_live : Bool)
    (title game_name : Option String) (viewer_count : Int)
    (started_at : Option String) (chat_message_count : Int) (now : Int) :
    Nat × TwitchStore :=
  (s.next_record_id,
    { s with
      stream_records := s.stream_records ++
        [{ id := s.next_record_id
           channel_id := channel_id
           timestamp := now
           is_live := is_live
           title := title
           game_name := game_name
           viewer_count := viewer_count
           started_at := started_at
           chat_message_count := chat_message_count }]
      next_record_id := s.next_record_id + 1 })

/-- `TwitchDatabase.add_chat_messages`: insert one
`twitch_chat_messages` row per collected message dict
`(username, message, timestamp)`, all under the given record id. -/
def add_chat_messages (s : TwitchStore) (record_id : Nat)
    (msgs : List (String × String × String)) : TwitchStore :=
  msgs.foldl
    (fun acc m =>
      { acc with
        chat_messages := acc.chat_messages ++
          [{ id := acc.next_chat_id
             record_id := record_id
             username := m.1
             message := m.2.1
             timestamp := m.2.2 }]
        next_chat_id := acc.next_chat_id + 1 })
    s

/-- The rows still referencing channel `e` (directly via
`twitch_stream_records.channel_id`, or transitively via
`twitch_chat_messages.record_id` pointing at such a record). -/
def rows_referencing (s : TwitchStore) (e : Nat) : Nat :=
  (s.stream_records.filter (fun r => r.channel_id == e)).length +
  (s.chat_messages.filter (fun m =>
    (s.stream_records.filter (fun r => r.channel_id == e)).any
      (fun r => r.id == m.record_id))).length

/-! ## Natural-key normalization at the page boundary
(src/pages/2_🎮_Twitch.py, `show_add_channel`) -/

/-- The cleaning step on line 75 of the Twitch page:
`channel_name.strip().lower().replace("@", "")` — trim surrounding
whitespace, lowercase, and delete every `@` (the `replace` with an empty
replacement removes all occurrences of the one-character sigil). -/
def normalize_channel_name (s : String) : String :=
  String.mk
    ((((s.toList.dropWhile Char.isWhitespace).reverse.dropWhile
        Char.isWhitespace).reverse.map Char.toLower).filter
      (fun c => !(c == '@')))

/-- The add-entity pipeline of the Twitch page: normalize the raw form
input, then get-or-create the channel row (`add_channel`). -/
def addEntity (s : TwitchStore) (raw : String) (now : Int) :
    Nat × TwitchStore :=
  add_channel s (normalize_channel_name raw) now

/-- The submit handler boundary of `show_add_channel`: inputs failing
`if not channel_name or len(channel_name) < 2` are rejected with an error
message before any cleaning or store access; otherwise the pipeline runs. -/
def page_add_channel (s : TwitchStore) (raw : String) (now : Int) :
    Option (Nat × TwitchStore) :=
  if raw.length < 2 then none else some (addEntity s raw now)

/-! ## Twitter tweets table (src/src/platforms/twitter_integration.py) -/

/-- A row of `twitter_tweets` (`tweet_id TEXT UNIQUE NOT NULL`,
`collected_at TIMESTAMP DEFAULT CURRENT_TIMESTAMP`). -/
structure TweetRow where
  id : Nat
  user_id : Nat
  tweet_id : String
  created_at : String
  text : String
  retweet_count : Int
  like_count : Int
  reply_count : Int
  quote_count : Int
  collected_at : Int
  deriving Repr, DecidableEq

/-- The `twitter_tweets` table with its `AUTOINCREMENT` counter. -/
structure TweetsTable where
  rows : List TweetRow
  next_id : Nat
  deriving Repr, DecidableEq

/-- `TwitterDatabase.add_tweet`: `SELECT id ... WHERE tweet_id = ?`; if a
row exists, `UPDATE` only the four metric counts for that `tweet_id`;
otherwise `INSERT` the full row, whose `collected_at` defaults to the
current timestamp. -/
def add_tweet (t : TweetsTable) (user_id : Nat) (tweet_id : String)
    (created_at text : String) (retweet_count like_count : Int)
    (reply_count quote_count : Int) (now : Int) : TweetsTable :=
  match t.rows.find? (fun r => r.tweet_id == tweet_id) with
  | some _ =>
      { t with
        rows := t.rows.map (fun r =>
          if r.tweet_id == tweet_id then
            { r with
              retweet_count := retweet_count
              like_count := like_count
              reply_count := reply_count
              quote_count := quote_count }
          else r) }
  | none =>
      { rows := t.rows ++
          [{ id := t.next_id
             user_id := user_id
             tweet_id := tweet_id
             created_at := created_at
             text := text
             retweet_count := retweet_count
             like_count := like_count
             reply_count := reply_count
             quote_count := quote_count
             collected_at := now }]
        next_id := t.next_id + 1 }

/-! ## IRC chat collector
(src/src/platforms/twitch_integration_enhanced.py, `TwitchIRCClient`)

`collect_messages` loops until the wall-clock window closes, calling
`sock.recv(2048)` each iteration. The embedding replaces the socket with
the scripted list of chunks the reads deliver inside the window, each
paired with the `datetime.now().isoformat()` reading current when it is
parsed; replies written to the socket (`PONG`) are collected in a list.
The per-line `try/except: pass` never fires an exception in this pure
model — its effect (a `PRIVMSG` line with fewer than three `':'`-split
parts contributes no message dict) is explicit in `processLine`. -/

/-- One entry of `self.messages`:
`{'username': ..., 'message': ..., 'timestamp': datetime.now().isoformat()}`. -/
structure IRCMessage where
  username : String
  message : String
  timestamp : String
  deriving Repr, DecidableEq

/-- The mutable collection state of a `TwitchIRCClient` instance:
`self.message_count` and `self.messages`. These are initialized in
`__init__` and never reset by `collect_messages`. -/
structure IRCClientState where
  message_count : Nat
  messages : List IRCMessage
  deriving Repr, DecidableEq

/-- The state of a freshly constructed client (`__init__`):
`self.messages = []`, `self.message_count = 0`. -/
def newIRCClient : IRCClientState := { message_count := 0, messages := [] }

/-- Split off everything before the first occurrence of `sep`, returning
the prefix and the remainder after the separator (`none` when `sep` does
not occur). -/
def splitFirst (sep : Char) : List Char → Option (List Char × List Char)
  | [] => none
  | c :: rest =>
      if c == sep then some ([], rest)
      else (splitFirst sep rest).map (fun p => (c :: p.1, p.2))

/-- Python's `line.split(':', 2)`: split at the first two occurrences of
`':'`, yielding one, two, or three parts. -/
def split2 (sep : Char) (s : List Char) : List (List Char) :=
  match splitFirst sep s with
  | none => [s]
  | some (a, b) =>
      match splitFirst sep b with
      | none => [a, b]
      | some (c, d) => [a, c, d]

/-- Python's `response.split('\r\n')`: non-overlapping left-to-right split
on the two-character separator. -/
def splitCRLF : List Char → List (List Char)
  | [] => [[]]
  | '\r' :: '\n' :: rest => [] :: splitCRLF rest
  | c :: rest =>
      match splitCRLF rest with
      | [] => [[c]]
      | h :: t => (c :: h) :: t

/-- Python's `pat in line` substring test. -/
def containsSub (pat s : List Char) : Bool :=
  s.tails.any (fun t => pat.isPrefixOf t)

/-- The body of `for line in response.split('\r\n')`: a line containing
`'PRIVMSG'` increments `self.message_count`; then `line.split(':', 2)`
is taken and, only when it has at least three parts, the username (the
part before `'!'` of `parts[1]`) and message (`parts[2]`) are appended
with the parse-time timestamp. -/
def processLine (st : IRCClientState) (now : String) (line : List Char) :
    IRCClientState :=
  if containsSub "PRIVMSG".toList line then
    let st1 := { st with message_count := st.message_count + 1 }
    match split2 ':' line with
    | [_, p1, p2] =>
        { st1 with
          messages := st1.messages ++
            [{ username := String.mk (p1.takeWhile (fun c => !(c == '!')))
               message := String.mk p2
               timestamp := now }] }
    | _ => st1
  else st

/-- One loop iteration of `collect_messages` on a received chunk: a chunk
starting with `'PING'` is answered with `"PONG\r\n"` and skipped entirely
(`continue`); otherwise every `'\r\n'`-separated line is processed. -/
def processChunk (st : IRCClientState) (chunk : String × String) :
    IRCClientState × List String :=
  if "PING".toList.isPrefixOf chunk.1.toList then (st, ["PONG\r\n"])
  else
    ((splitCRLF chunk.1.toList).foldl
      (fun acc line => processLine acc chunk.2 line) st, [])

/-- `TwitchIRCClient.collect_messages` over the scripted chunks delivered
within the collection window: fold the loop body over the chunks, gather
the socket replies, and end in the state whose `message_count` and
`messages` the method returns as its result dict. -/
def collect_messages (st : IRCClientState) (chunks : List (String × String)) :
    IRCClientState × List String :=
  chunks.foldl
    (fun acc ch =>
      let step := processChunk acc.1 ch
      (step.1, acc.2 ++ step.2))
    (st, [])

/-! ## Helper lemmas -/

theorem length_filter_add_length_filter_not {α : Type} (l : List α)
    (p : α → Bool) :
    (l.filter p).length + (l.filter (fun a => !p a)).length = l.length := by
  induction l with
  | nil => simp
  | cons x xs ih =>
      by_cases h : p x <;> simp [List.filter_cons, h] <;> omega

theorem find?_none_of_hasKey_false (l : Jobs) (k : String)
    (h : hasKey l k = false) : l.find? (fun kv => kv.1 == k) = none := by
  rw [List.find?_eq_none]
  intro kv hmem
  simp only [hasKey, List.any_eq_false] at h
  exact fun hk => (h kv hmem) hk

theorem get_job_append_of_fresh (l1 l2 : Jobs) (k : String)
    (h : hasKey l1 k = false) : get_job (l1 ++ l2) k = get_job l2 k := by
  simp [get_job, List.find?_append, find?_none_of_hasKey_false l1 k h]

theorem dictInsert_of_fresh (l : Jobs) (k : String) (v : MonitoringJob)
    (h : hasKey l k = false) : dictInsert l k v = l ++ [(k, v)] := by
  simp [dictInsert, h]

theorem get_job_map_replace (l : Jobs) (k : String) (v : MonitoringJob)
    (h : hasKey l k = true) :
    get_job (l.map (fun kv => if kv.1 == k then (k, v) else kv)) k =
      some v := by
  induction l with
  | nil => simp [hasKey] at h
  | cons kv t ih =>
      by_cases hk : (kv.1 == k) = true
      · rw [List.map_cons, if_pos hk]
        unfold get_job
        rw [List.find?_cons_of_pos _ (by simp)]
        rfl
      · rw [List.map_cons, if_neg hk]
        unfold get_job
        rw [List.find?_cons_of_neg _ (by simpa using hk)]
        simp only [hasKey, List.any_cons, hk, Bool.false_or] at h
        exact ih h

theorem get_job_insert_self (l : Jobs) (k : String) (v : MonitoringJob) :
    get_job (dictInsert l k v) k = some v := by
  by_cases h : hasKey l k
  · rw [dictInsert, if_pos h]
    exact get_job_map_replace l k v h
  · rw [dictInsert_of_fresh l k v (by simpa using h),
      get_job_append_of_fresh l [(k, v)] k (by simpa using h)]
    unfold get_job
    rw [List.find?_cons_of_pos _ (by simp)]
    rfl

theorem mem_due_mem_base (jobs : Jobs) (now : Int) (pf : Option String)
    (job : MonitoringJob) (h : job ∈ get_jobs_due_for_run jobs now pf) :
    job ∈ (get_all_jobs jobs).filter
      (fun j => j.is_active && decide (j.next_run ≤ now)) := by
  cases pf with
  | none => simpa only [get_jobs_due_for_run] using h
  | some p =>
      simp only [get_jobs_due_for_run] at h
      exact (List.mem_filter.mp h).1

theorem processLine_delta (st : IRCClientState) (now : String)
    (line : List Char) :
    processLine st now line =
      { message_count :=
          st.message_count + (processLine newIRCClient now line).message_count
        messages :=
          st.messages ++ (processLine newIRCClient now line).messages } := by
  unfold processLine newIRCClient
  split
  case isTrue hc =>
    simp only [hc, if_true]
    rcases hs : split2 ':' line with _ | ⟨p0, _ | ⟨p1, _ | ⟨p2, _ | ⟨p3, r⟩⟩⟩⟩ <;>
      simp [hs]
  case isFalse hc =>
    simp [hc]

theorem foldl_lines_delta (lines : List (List Char)) (now : String)
    (st : IRCClientState) :
    lines.foldl (fun acc l => processLine acc now l) st =
      { message_count :=
          st.message_count +
            (lines.foldl (fun acc l => processLine acc now l)
              newIRCClient).message_count
        messages :=
          st.messages ++
            (lines.foldl (fun acc l => processLine acc now l)
              newIRCClient).messages } := by
  induction lines generalizing st with
  | nil => simp [newIRCClient]
  | cons l ls ih =>
      simp only [List.foldl_cons]
      rw [ih (processLine st now l), ih (processLine newIRCClient now l),
        processLine_delta st now l]
      simp [Nat.add_assoc, List.append_assoc]

theorem processChunk_fst_delta (st : IRCClientState) (ch : String × String) :
    (processChunk st ch).1 =
      { message_count :=
          st.message_count + (processChunk newIRCClient ch).1.message_count
        messages :=
          st.messages ++ (processChunk newIRCClient ch).1.messages } := by
  unfold processChunk
  split
  case isTrue hc =>
    simp [hc, newIRCClient]
  case isFalse hc =>
    simp only [hc, if_false]
    simpa using foldl_lines_delta (splitCRLF ch.1.toList) ch.2 st

theorem collect_fold_fst (chunks : List (String × String))
    (st : IRCClientState) (sent : List String) :
    (chunks.foldl
      (fun acc ch =>
        let step := processChunk acc.1 ch
        (step.1, acc.2 ++ step.2)) (st, sent)).1 =
      chunks.foldl (fun acc ch => (processChunk acc ch).1) st := by
  induction chunks generalizing st sent with
  | nil => rfl
  | cons c cs ih =>
      simp only [List.foldl_cons]
      exact ih _ _

theorem collect_messages_fst (st : IRCClientState)
    (chunks : List (String × String)) :
    (collect_messages st chunks).1 =
      chunks.foldl (fun acc ch => (processChunk acc ch).1) st := by
  unfold collect_messages
  exact collect_fold_fst chunks st []

theorem collect_state_delta (chunks : List (String × String))
    (st : IRCClientState) :
    (collect_messages st chunks).1 =
      { message_count :=
          st.message_count +
            (collect_messages newIRCClient chunks).1.message_count
        messages :=
          st.messages ++
            (collect_messages newIRCClient chunks).1.messages } := by
  rw [collect_messages_fst, collect_messages_fst]
  induction chunks generalizing st with
  | nil => simp [newIRCClient]
  | cons c cs ih =>
      simp only [List.foldl_cons]
      rw [ih ((processChunk st c).1), ih ((processChunk newIRCClient c).1),
        processChunk_fst_delta st c]
      simp [Nat.add_assoc, List.append_assoc]

theorem bucket_counts (l : List MonitoringJob) :
    (l.filter (fun j => j.platform == "twitch")).length +
    (l.filter (fun j => j.platform == "twitter")).length +
    (l.filter (fun j => j.platform == "youtube")).length +
    (l.filter (fun j => j.platform == "reddit")).length =
    (l.filter knownPlatform).length := by
  induction l with
  | nil => simp
  | cons x xs ih =>
      by_cases h1 : x.platform = "twitch"
      · simp [List.filter_cons, knownPlatform, h1]; omega
      · by_cases h2 : x.platform = "twitter"
        · simp [List.filter_cons, knownPlatform, h2]; omega
        · by_cases h3 : x.platform = "youtube"
          · simp [List.filter_cons, knownPlatform, h3]; omega
          · by_cases h4 : x.platform = "reddit"
            · simp [List.filter_cons, knownPlatform, h4]; omega
            · have h1' : (x.platform == "twitch") = false := by simpa using h1
              have h2' : (x.platform == "twitter") = false := by simpa using h2
              have h3' : (x.platform == "youtube") = false := by simpa using h3
              have h4' : (x.platform == "reddit") = false := by simpa using h4
              simp [List.filter_cons, knownPlatform, h1', h2', h3', h4']
              omega

/-! ## Claim theorems -/

/-- C10: for every reachable job set, the statistics snapshot is
internally consistent: `total_jobs` equals `active_jobs + paused_jobs`,
`total_runs` equals the sum of `total_runs` over all jobs, and
`jobs_with_errors` counts the jobs with a non-nil `last_error`; the
`jobs_by_platform` buckets cover only the four known platforms, so the
four bucket counts plus the number of jobs on any other platform string
equal `total_jobs` (an unknown-platform job is in `total_jobs` but in no
bucket). -/
theorem jobStatistics_consistent (jobs : Jobs) :
    (get_job_statistics jobs).total_jobs =
        (get_job_statistics jobs).active_jobs +
          (get_job_statistics jobs).paused_jobs ∧
    (get_job_statistics jobs).total_runs =
        ((get_all_jobs jobs).map (fun j => j.total_runs)).sum ∧
    (get_job_statistics jobs).jobs_with_errors =
        ((get_all_jobs jobs).filter (fun j => j.last_error.isSome)).length ∧
    (get_job_statistics jobs).jobs_by_platform.twitch +
        (get_job_statistics jobs).jobs_by_platform.twitter +
        (get_job_statistics jobs).jobs_by_platform.youtube +
        (get_job_statistics jobs).jobs_by_platform.reddit +
        ((get_all_jobs jobs).filter (fun j => !knownPlatform j)).length =
      (get_job_statistics jobs).total_jobs := by
  refine ⟨?_, rfl, rfl, ?_⟩
  · show (get_all_jobs jobs).length =
      ((get_all_jobs jobs).filter (fun j => j.is_active)).length +
        ((get_all_jobs jobs).filter (fun j => !j.is_active)).length
    exact (length_filter_add_length_filter_not (get_all_jobs jobs)
      (fun j => j.is_active)).symm
  · show ((get_all_jobs jobs).filter (fun j => j.platform == "twitch")).length +
        ((get_all_jobs jobs).filter (fun j => j.platform == "twitter")).length +
        ((get_all_jobs jobs).filter (fun j => j.platform == "youtube")).length +
        ((get_all_jobs jobs).filter (fun j => j.platform == "reddit")).length +
        ((get_all_jobs jobs).filter (fun j => !knownPlatform j)).length =
      (get_all_jobs jobs).length
    rw [bucket_counts]
    exact length_filter_add_length_filter_not (get_all_jobs jobs) knownPlatform

/-- C5: for an existing job, `mark_job_run` sets `last_run = now`,
`next_run = now + interval` (60·interval_minutes seconds), increments
`total_runs` by exactly one, sets `last_error` to nil on success and to
the given error on failure, and changes nothing else — in particular
`is_active` is untouched, so a failed run leaves the job active. -/
theorem mark_job_run_spec (jobs : Jobs) (job_id : String) (success : Bool)
    (error : Option String) (now : Int) (j : MonitoringJob)
    (h : get_job jobs job_id = some j) :
    get_job (mark_job_run jobs job_id success error now) job_id =
      some { j with
        last_run := some now
        next_run := now + 60 * j.interval_minutes
        total_runs := j.total_runs + 1
        last_error := if success then none else error } := by
  induction jobs with
  | nil => simp [get_job] at h
  | cons kv t ih =>
      by_cases hk : (kv.1 == job_id) = true
      · have hj : kv.2 = j := by
          unfold get_job at h
          rw [List.find?_cons_of_pos (p := fun kv : String × MonitoringJob => kv.1 == job_id) t hk] at h
          simpa using h
        unfold mark_job_run get_job
        rw [List.map_cons, if_pos hk]
        simp [List.find?_cons, hk, hj]
      · have h' : get_job t job_id = some j := by
          unfold get_job at h
          rwa [List.find?_cons_of_neg (p := fun kv : String × MonitoringJob => kv.1 == job_id) t hk]
            at h
        have hrec := ih h'
        unfold mark_job_run get_job at hrec ⊢
        rw [List.map_cons, if_neg hk,
          List.find?_cons_of_neg (p := fun kv : String × MonitoringJob => kv.1 == job_id) _ hk]
        exact hrec

/-- Witness for C5 at the spec's own scenario: a `"twitch"` job for
entity 42 (`"ninja"`, 15-minute interval) added at time 100, marked run
at time 200 with `success = false`, `error = "timeout"`. -/
theorem mark_job_run_spec_witness :
    get_job [("twitch_42_100",
      { id := "twitch_42_100", platform := "twitch", entity_id := 42,
        entity_name := "ninja", interval_minutes := 15, last_run := none,
        next_run := 100, is_active := true, total_runs := 0,
        last_error := none, metadata := [] })] "twitch_42_100" =
      some { id := "twitch_42_100", platform := "twitch", entity_id := 42,
             entity_name := "ninja", interval_minutes := 15,
             last_run := none, next_run := 100, is_active := true,
             total_runs := 0, last_error := none, metadata := [] } ∧
    get_job (mark_job_run [("twitch_42_100",
      { id := "twitch_42_100", platform := "twitch", entity_id := 42,
        entity_name := "ninja", interval_minutes := 15, last_run := none,
        next_run := 100, is_active := true, total_runs := 0,
        last_error := none, metadata := [] })] "twitch_42_100" false
        (some "timeout") 200) "twitch_42_100" =
      some { id := "twitch_42_100", platform := "twitch", entity_id := 42,
             entity_name := "ninja", interval_minutes := 15,
             last_run := some 200, next_run := 200 + 60 * 15,
             is_active := true, total_runs := 0 + 1,
             last_error := (if false then none else some "timeout"),
             metadata := [] } :=
  ⟨by decide,
    mark_job_run_spec [("twitch_42_100",
      { id := "twitch_42_100", platform := "twitch", entity_id := 42,
        entity_name := "ninja", interval_minutes := 15, last_run := none,
        next_run := 100, is_active := true, total_runs := 0,
        last_error := none, metadata := [] })] "twitch_42_100" false
      (some "timeout") 200
      { id := "twitch_42_100", platform := "twitch", entity_id := 42,
        entity_name := "ninja", interval_minutes := 15, last_run := none,
        next_run := 100, is_active := true, total_runs := 0,
        last_error := none, metadata := [] }
      (by decide)⟩

/-- C8: after `pause_job j`, no due-jobs query (at any instant, with any
platform filter) returns a job with id `j`; after `resume_job j` at time
`t`, the due-jobs query at any instant `t' ≥ t` returns the job with id
`j` again, because resuming resets `next_run` to the resume instant in
addition to setting `is_active`. (The hypothesis that every dict entry's
stored job carries its key as its id holds for every state the
`JobManager` API can reach.) -/
theorem pause_resume_due_spec (jobs : Jobs) (j : String) (t t' : Int)
    (pf : Option String)
    (hco : ∀ kv ∈ jobs, (kv.2).id = kv.1)
    (hkey : hasKey jobs j = true) (hle : t ≤ t') :
    (∀ job ∈ get_jobs_due_for_run (pause_job jobs j) t' pf, job.id ≠ j) ∧
    (∃ job ∈ get_jobs_due_for_run (resume_job jobs j t) t' none,
      job.id = j) := by
  constructor
  · intro job hmem
    have hbase := mem_due_mem_base _ _ _ _ hmem
    rw [List.mem_filter] at hbase
    obtain ⟨hmemall, hact⟩ := hbase
    unfold get_all_jobs pause_job at hmemall
    rw [List.map_map, List.mem_map] at hmemall
    obtain ⟨kv, hkv, heq⟩ := hmemall
    by_cases hk : (kv.1 == j) = true
    · simp only [Function.comp, hk, if_pos] at heq
      rw [← heq] at hact
      simp at hact
    · have heq2 : kv.2 = job := by
        simpa [Function.comp, hk] using heq
      intro hid
      apply hk
      rw [← heq2, hco kv hkv] at hid
      simp [hid]
  · simp only [hasKey, List.any_eq_true] at hkey
    obtain ⟨kv, hkv, hbeq⟩ := hkey
    have hk1 : kv.1 = j := by simpa using hbeq
    refine ⟨{ kv.2 with is_active := true, next_run := t }, ?_, ?_⟩
    · show _ ∈ get_jobs_due_for_run (resume_job jobs j t) t' none
      unfold get_jobs_due_for_run
      rw [List.mem_filter]
      constructor
      · unfold get_all_jobs resume_job
        rw [List.map_map, List.mem_map]
        exact ⟨kv, hkv, by simp [Function.comp, hbeq]⟩
      · simp [hle]
    · show ({ kv.2 with is_active := true, next_run := t } :
        MonitoringJob).id = j
      rw [show ({ kv.2 with is_active := true, next_run := t } :
        MonitoringJob).id = (kv.2).id from rfl, hco kv hkv]
      exact hk1

/-- Witness for C8: one active `"twitch"` job whose `next_run` is far in
the past, paused and then resumed at time 50 with the due-check at
time 60. -/
theorem pause_resume_due_spec_witness :
    (∀ kv ∈ ([("w",
      { id := "w", platform := "twitch", entity_id := 7,
        entity_name := "x", interval_minutes := 15, last_run := none,
        next_run := 0, is_active := true, total_runs := 3,
        last_error := none, metadata := [] })] : Jobs), (kv.2).id = kv.1) ∧
    hasKey [("w",
      { id := "w", platform := "twitch", entity_id := 7,
        entity_name := "x", interval_minutes := 15, last_run := none,
        next_run := 0, is_active := true, total_runs := 3,
        last_error := none, metadata := [] })] "w" = true ∧
    (50 : Int) ≤ 60 ∧
    ((∀ job ∈ get_jobs_due_for_run (pause_job [("w",
      { id := "w", platform := "twitch", entity_id := 7,
        entity_name := "x", interval_minutes := 15, last_run := none,
        next_run := 0, is_active := true, total_runs := 3,
        last_error := none, metadata := [] })] "w") 60 none,
      job.id ≠ "w") ∧
    (∃ job ∈ get_jobs_due_for_run (resume_job [("w",
      { id := "w", platform := "twitch", entity_id := 7,
        entity_name := "x", interval_minutes := 15, last_run := none,
        next_run := 0, is_active := true, total_runs := 3,
        last_error := none, metadata := [] })] "w" 50) 60 none,
      job.id = "w")) :=
  ⟨by decide, by decide, by decide,
    pause_resume_due_spec [("w",
      { id := "w", platform := "twitch", entity_id := 7,
        entity_name := "x", interval_minutes := 15, last_run := none,
        next_run := 0, is_active := true, total_runs := 3,
        last_error := none, metadata := [] })] "w" 50 60 none
      (by decide) (by decide) (by decide)⟩

theorem dict_two_fresh (l : Jobs) (k1 k2 : String)
    (v1 v2 : MonitoringJob) (hne : k1 ≠ k2) (h1 : hasKey l k1 = false)
    (h2 : hasKey l k2 = false) :
    (dictInsert (dictInsert l k1 v1) k2 v2).length = l.length + 2 ∧
    get_job (dictInsert (dictInsert l k1 v1) k2 v2) k1 = some v1 ∧
    get_job (dictInsert (dictInsert l k1 v1) k2 v2) k2 = some v2 := by
  have e1 : dictInsert l k1 v1 = l ++ [(k1, v1)] :=
    dictInsert_of_fresh l k1 v1 h1
  have h2' : hasKey (l ++ [(k1, v1)]) k2 = false := by
    unfold hasKey
    rw [List.any_append]
    have h2u : l.any (fun kv => kv.1 == k2) = false := h2
    rw [h2u]
    simp [hne]
  have e2 : dictInsert (l ++ [(k1, v1)]) k2 v2 =
      (l ++ [(k1, v1)]) ++ [(k2, v2)] :=
    dictInsert_of_fresh _ k2 v2 h2'
  rw [e1, e2]
  refine ⟨by simp, ?_, ?_⟩
  · rw [List.append_assoc,
      get_job_append_of_fresh l ([(k1, v1)] ++ [(k2, v2)]) k1 h1]
    unfold get_job
    rw [show ([(k1, v1)] ++ [(k2, v2)] : Jobs) = [(k1, v1), (k2, v2)]
      from rfl]
    rw [List.find?_cons_of_pos (p := fun kv : String × MonitoringJob =>
      kv.1 == k1) [(k2, v2)] (a := (k1, v1)) (by simp)]
    rfl
  · rw [get_job_append_of_fresh (l ++ [(k1, v1)]) [(k2, v2)] k2 h2']
    unfold get_job
    rw [List.find?_cons_of_pos (p := fun kv : String × MonitoringJob =>
      kv.1 == k2) [] (a := (k2, v2)) (by simp)]
    rfl

/-- C4 (amended): two `add_job` calls create two distinct jobs — each
with `next_run` equal to its creation instant, `is_active = true` and
`total_runs = 0`, and neither replacing the other — provided their
generated ids `platform_entityId_second` differ (the calls differ in
platform, entity id, or whole-second timestamp) and neither id is already
present. Two calls with the same platform and entity id in the same
whole second generate the same id, and the second then replaces the
first (see the counterexample). -/
theorem add_job_fresh_spec (jobs : Jobs) (p1 p2 n1 n2 : String)
    (e1 e2 i1 i2 t1 t2 : Int) (m1 m2 : List (String × String))
    (hne : mkJobId p1 e1 t1 ≠ mkJobId p2 e2 t2)
    (hf1 : hasKey jobs (mkJobId p1 e1 t1) = false)
    (hf2 : hasKey jobs (mkJobId p2 e2 t2) = false) :
    (add_job jobs p1 e1 n1 i1 m1 t1).1 ≠
        (add_job (add_job jobs p1 e1 n1 i1 m1 t1).2 p2 e2 n2 i2 m2 t2).1 ∧
    (add_job (add_job jobs p1 e1 n1 i1 m1 t1).2 p2 e2 n2 i2 m2
        t2).2.length = jobs.length + 2 ∧
    get_job (add_job (add_job jobs p1 e1 n1 i1 m1 t1).2 p2 e2 n2 i2 m2
        t2).2 (add_job jobs p1 e1 n1 i1 m1 t1).1 =
      some { id := mkJobId p1 e1 t1, platform := p1, entity_id := e1,
             entity_name := n1, interval_minutes := i1, last_run := none,
             next_run := t1, is_active := true, total_runs := 0,
             last_error := none, metadata := m1 } ∧
    get_job (add_job (add_job jobs p1 e1 n1 i1 m1 t1).2 p2 e2 n2 i2 m2
        t2).2
        (add_job (add_job jobs p1 e1 n1 i1 m1 t1).2 p2 e2 n2 i2 m2
          t2).1 =
      some { id := mkJobId p2 e2 t2, platform := p2, entity_id := e2,
             entity_name := n2, interval_minutes := i2, last_run := none,
             next_run := t2, is_active := true, total_runs := 0,
             last_error := none, metadata := m2 } := by
  obtain ⟨hlen, hg1, hg2⟩ := dict_two_fresh jobs
    (mkJobId p1 e1 t1) (mkJobId p2 e2 t2)
    { id := mkJobId p1 e1 t1, platform := p1, entity_id := e1,
      entity_name := n1, interval_minutes := i1, last_run := none,
      next_run := t1, is_active := true, total_runs := 0,
      last_error := none, metadata := m1 }
    { id := mkJobId p2 e2 t2, platform := p2, entity_id := e2,
      entity_name := n2, interval_minutes := i2, last_run := none,
      next_run := t2, is_active := true, total_runs := 0,
      last_error := none, metadata := m2 }
    hne hf1 hf2
  exact ⟨hne, hlen, hg1, hg2⟩

/-- Witness for C4's amended theorem: two adds for the same entity one
second apart. -/
theorem add_job_fresh_spec_witness :
    mkJobId "twitch" 1 100 ≠ mkJobId "twitch" 1 101 ∧
    hasKey [] (mkJobId "twitch" 1 100) = false ∧
    hasKey [] (mkJobId "twitch" 1 101) = false ∧
    ((add_job [] "twitch" 1 "first" 5 [] 100).1 ≠
        (add_job (add_job [] "twitch" 1 "first" 5 [] 100).2
          "twitch" 1 "second" 5 [] 101).1 ∧
      (add_job (add_job [] "twitch" 1 "first" 5 [] 100).2
          "twitch" 1 "second" 5 [] 101).2.length = 0 + 2 ∧
      get_job (add_job (add_job [] "twitch" 1 "first" 5 [] 100).2
          "twitch" 1 "second" 5 [] 101).2
          (add_job [] "twitch" 1 "first" 5 [] 100).1 =
        some { id := mkJobId "twitch" 1 100, platform := "twitch",
               entity_id := 1, entity_name := "first",
               interval_minutes := 5, last_run := none, next_run := 100,
               is_active := true, total_runs := 0, last_error := none,
               metadata := [] } ∧
      get_job (add_job (add_job [] "twitch" 1 "first" 5 [] 100).2
          "twitch" 1 "second" 5 [] 101).2
          (add_job (add_job [] "twitch" 1 "first" 5 [] 100).2
            "twitch" 1 "second" 5 [] 101).1 =
        some { id := mkJobId "twitch" 1 101, platform := "twitch",
               entity_id := 1, entity_name := "second",
               interval_minutes := 5, last_run := none, next_run := 101,
               is_active := true, total_runs := 0, last_error := none,
               metadata := [] }) :=
  ⟨by decide, by decide, by decide,
    add_job_fresh_spec [] "twitch" "twitch" "first" "second" 1 1 5 5 100
      101 [] [] (by decide) (by decide) (by decide)⟩

/-- Counterexample to C4 as stated: two `add_job` calls with the same
platform and entity id in the same whole second (`int(time.time())`
unchanged) generate the same id `"twitch_1_100"`, so the second call
replaces the first — the scheduler then holds one job, not two, with the
second call's `entity_name`. -/
theorem add_job_same_second_replaces :
    (add_job [] "twitch" 1 "first" 5 [] 100).1 =
      (add_job (add_job [] "twitch" 1 "first" 5 [] 100).2
        "twitch" 1 "second" 5 [] 100).1 ∧
    (add_job (add_job [] "twitch" 1 "first" 5 [] 100).2
        "twitch" 1 "second" 5 [] 100).2.length = 1 ∧
    get_job (add_job (add_job [] "twitch" 1 "first" 5 [] 100).2
        "twitch" 1 "second" 5 [] 100).2 "twitch_1_100" =
      some { id := "twitch_1_100", platform := "twitch", entity_id := 1,
             entity_name := "second", interval_minutes := 5,
             last_run := none, next_run := 100, is_active := true,
             total_runs := 0, last_error := none, metadata := [] } := by
  decide

/-- C3: the add-entity pipeline is idempotent under natural-key
normalization: whenever two raw inputs normalize to the same key (case
variants, leading/extra `@` sigils, surrounding whitespace), adding the
first and then the second returns the same entity id, because the page
boundary lowercases and strips the sigil before the store's
get-or-create lookup. -/
theorem addEntity_idempotent (s : TwitchStore) (k1 k2 : String)
    (t1 t2 : Int)
    (h : normalize_channel_name k1 = normalize_channel_name k2) :
    (addEntity (addEntity s k1 t1).2 k2 t2).1 = (addEntity s k1 t1).1 := by
  unfold addEntity
  rw [← h]
  unfold add_channel
  cases hf : s.channels.find?
      (fun c => c.channel_name == normalize_channel_name k1) with
  | some c => simp [hf]
  | none => simp [hf, List.find?_append]

/-- Witness for C3: `"Foo"` then `" @foo"` on the empty store. -/
theorem addEntity_idempotent_witness :
    normalize_channel_name "Foo" = normalize_channel_name " @foo" ∧
    (addEntity (addEntity emptyTwitchStore "Foo" 1).2 " @foo" 2).1 =
      (addEntity emptyTwitchStore "Foo" 1).1 :=
  ⟨by decide,
    addEntity_idempotent emptyTwitchStore "Foo" " @foo" 1 2 (by decide)⟩

/-- C2: upsert round-trip. For a tweet id `X` not yet in the store,
inserting `X` and then re-inserting `X` with different metric values
leaves exactly one row for `X`; that row carries the second call's four
metric counts while its store id, `tweet_id`, `created_at`, `text`,
`user_id` and `collected_at` are those of the first insert (the `UPDATE`
touches only the metric columns). -/
theorem add_tweet_upsert (tb : TweetsTable) (uid1 uid2 : Nat)
    (X cat1 cat2 txt1 txt2 : String) (r1 l1 p1 q1 r2 l2 p2 q2 : Int)
    (t1 t2 : Int) (h : ∀ r ∈ tb.rows, (r.tweet_id == X) = false) :
    (add_tweet (add_tweet tb uid1 X cat1 txt1 r1 l1 p1 q1 t1) uid2 X cat2
        txt2 r2 l2 p2 q2 t2).rows.filter (fun r => r.tweet_id == X) =
      [{ id := tb.next_id, user_id := uid1, tweet_id := X,
         created_at := cat1, text := txt1, retweet_count := r2,
         like_count := l2, reply_count := p2, quote_count := q2,
         collected_at := t1 }] := by
  have hnone : tb.rows.find? (fun r => r.tweet_id == X) = none :=
    List.find?_eq_none.mpr (fun r hr => by simp [h r hr])
  have hmap : tb.rows.map (fun r =>
      if r.tweet_id == X then
        { r with retweet_count := r2, like_count := l2,
                 reply_count := p2, quote_count := q2 }
      else r) = tb.rows :=
    (List.map_congr_left (fun r hr => by simp [h r hr])).trans
      (List.map_id tb.rows)
  have hfil : tb.rows.filter (fun r => r.tweet_id == X) = [] :=
    List.filter_eq_nil_iff.mpr (fun r hr => by simp [h r hr])
  simp only [add_tweet, hnone]
  simp [List.find?_append, hnone, List.filter_append, List.map_append,
    hmap, hfil]
  intro a ha
  have hx : ¬ a.tweet_id = X := by simpa using h a ha
  simp [hx]

/-- Witness for C2: tweet `"X1"` inserted into the empty table with
metrics (1, 2, 3, 4) at time 10, re-inserted with metrics (5, 6, 7, 8)
at time 20. -/
theorem add_tweet_upsert_witness :
    (∀ r ∈ ({ rows := [], next_id := 1 } : TweetsTable).rows,
      (r.tweet_id == "X1") = false) ∧
    (add_tweet (add_tweet { rows := [], next_id := 1 } 9 "X1" "c1" "hello"
        1 2 3 4 10) 8 "X1" "c2" "other" 5 6 7 8 20).rows.filter
        (fun r => r.tweet_id == "X1") =
      [{ id := 1, user_id := 9, tweet_id := "X1", created_at := "c1",
         text := "hello", retweet_count := 5, like_count := 6,
         reply_count := 7, quote_count := 8, collected_at := 10 }] :=
  ⟨by decide,
    add_tweet_upsert { rows := [], next_id := 1 } 9 8 "X1" "c1" "c2"
      "hello" "other" 1 2 3 4 5 6 7 8 10 20 (by decide)⟩

/-- C1 (evaluation at the failing input): a store built through the API
with one channel (`"ninja"`, id 1), one stream record for it and one chat
message under that record. `delete_channel 1` removes the channel row,
but — since `SessionDatabase` never enables `PRAGMA foreign_keys`, so the
declared `ON DELETE CASCADE` clauses are not enforced — the stream record
and the chat message survive: 2 rows still reference entity 1, not 0. -/
theorem delete_channel_leaves_orphans :
    (add_channel emptyTwitchStore "ninja" 10).1 = 1 ∧
    (add_stream_record (add_channel emptyTwitchStore "ninja" 10).2 1 true
        (some "Title") (some "Game") 100 none 1 20).1 = 1 ∧
    (delete_channel (add_chat_messages (add_stream_record (add_channel
        emptyTwitchStore "ninja" 10).2 1 true (some "Title") (some "Game")
        100 none 1 20).2 1 [("alice", "hi", "ts")]) 1).channels = [] ∧
    rows_referencing (delete_channel (add_chat_messages (add_stream_record
        (add_channel emptyTwitchStore "ninja" 10).2 1 true (some "Title")
        (some "Game") 100 none 1 20).2 1 [("alice", "hi", "ts")]) 1) 1 =
      2 := by
  decide

/-- Counterexample to C6 as stated: neither layer validates. `add_job`
with the non-positive interval −5 raises nothing and mutates the
scheduler (the job is created with `interval_minutes = -5`), and
`add_channel` with the empty natural key inserts a row named `""`. -/
theorem no_boundary_validation :
    (add_job [] "twitch" 1 "ninja" (-5) [] 100).2.length = 1 ∧
    get_job (add_job [] "twitch" 1 "ninja" (-5) [] 100).2
        (add_job [] "twitch" 1 "ninja" (-5) [] 100).1 =
      some { id := "twitch_1_100", platform := "twitch", entity_id := 1,
             entity_name := "ninja", interval_minutes := -5,
             last_run := none, next_run := 100, is_active := true,
             total_runs := 0, last_error := none, metadata := [] } ∧
    (add_channel emptyTwitchStore "" 5).2.channels =
      [{ id := 1, channel_name := "", added_at := 5,
         is_monitoring := false }] := by
  decide

/-- C6 (amended): malformed input is rejected only at the UI form
boundary — `show_add_channel` returns before any store access when the
name is empty or shorter than two characters — while the scheduler and
store layers perform no validation: `add_job` accepts a non-positive
interval and creates the job anyway, and `add_channel` accepts the empty
natural key and inserts it. -/
theorem boundary_validation_amended (jobs : Jobs) (p n : String)
    (e i t : Int) (m : List (String × String)) (hi : i ≤ 0)
    (s : TwitchStore) (t2 : Int)
    (hs : ∀ c ∈ s.channels, (c.channel_name == "") = false) :
    get_job (add_job jobs p e n i m t).2 (add_job jobs p e n i m t).1 =
      some { id := mkJobId p e t, platform := p, entity_id := e,
             entity_name := n, interval_minutes := i, last_run := none,
             next_run := t, is_active := true, total_runs := 0,
             last_error := none, metadata := m } ∧
    page_add_channel s "" t2 = none ∧
    (add_channel s "" t2).2.channels.length = s.channels.length + 1 := by
  refine ⟨?_, rfl, ?_⟩
  · exact get_job_insert_self jobs (mkJobId p e t) _
  · have hnone : s.channels.find? (fun c => c.channel_name == "") =
        none :=
      List.find?_eq_none.mpr (fun c hc => by simp [hs c hc])
    simp [add_channel, hnone]

/-- Witness for C6's amended theorem: interval −5 on the empty scheduler,
empty key on the empty store. -/
theorem boundary_validation_amended_witness :
    (-5 : Int) ≤ 0 ∧
    (∀ c ∈ emptyTwitchStore.channels, (c.channel_name == "") = false) ∧
    (get_job (add_job [] "twitch" 1 "ninja" (-5) [] 100).2
        (add_job [] "twitch" 1 "ninja" (-5) [] 100).1 =
      some { id := mkJobId "twitch" 1 100, platform := "twitch",
             entity_id := 1, entity_name := "ninja",
             interval_minutes := -5, last_run := none, next_run := 100,
             is_active := true, total_runs := 0, last_error := none,
             metadata := [] } ∧
    page_add_channel emptyTwitchStore "" 5 = none ∧
    (add_channel emptyTwitchStore "" 5).2.channels.length =
      emptyTwitchStore.channels.length + 1) :=
  ⟨by decide, by decide,
    boundary_validation_amended [] "twitch" "ninja" 1 (-5) 100 []
      (by decide) emptyTwitchStore 5 (by decide)⟩

/-- Counterexample to C7 as stated: when the malformed line contains the
chat-message marker `PRIVMSG` (here a `PRIVMSG` line with no `':'`, so
`split(':', 2)` yields fewer than three parts), `message_count` is
incremented before the parse attempt, so `Collect` reports
`messageCount = 4` — not 3 — even though only the 3 well-formed messages
are returned. The keepalive is still answered and nothing is raised. -/
theorem collect_counts_malformed_marker_line :
    (collect_messages newIRCClient
      [("PING :tmi.twitch.tv", "t0"),
       (":alice!alice@a.tmi.twitch.tv PRIVMSG #chan :hello", "t1"),
       (":bob!bob@b.tmi.twitch.tv PRIVMSG #chan :hi there", "t2"),
       ("PRIVMSG garbled no colons", "t3"),
       (":carol!carol@c.tmi.twitch.tv PRIVMSG #chan :yo",
        "t4")]).1.message_count = 4 ∧
    (collect_messages newIRCClient
      [("PING :tmi.twitch.tv", "t0"),
       (":alice!alice@a.tmi.twitch.tv PRIVMSG #chan :hello", "t1"),
       (":bob!bob@b.tmi.twitch.tv PRIVMSG #chan :hi there", "t2"),
       ("PRIVMSG garbled no colons", "t3"),
       (":carol!carol@c.tmi.twitch.tv PRIVMSG #chan :yo",
        "t4")]).1.messages =
      [{ username := "alice", message := "hello", timestamp := "t1" },
       { username := "bob", message := "hi there", timestamp := "t2" },
       { username := "carol", message := "yo", timestamp := "t4" }] ∧
    (collect_messages newIRCClient
      [("PING :tmi.twitch.tv", "t0"),
       (":alice!alice@a.tmi.twitch.tv PRIVMSG #chan :hello", "t1"),
       (":bob!bob@b.tmi.twitch.tv PRIVMSG #chan :hi there", "t2"),
       ("PRIVMSG garbled no colons", "t3"),
       (":carol!carol@c.tmi.twitch.tv PRIVMSG #chan :yo",
        "t4")]).2 = ["PONG\r\n"] := by
  decide

/-- C7 (amended): for the scripted stream with 1 keepalive challenge,
3 well-formed chat lines and 1 malformed line, `Collect` returns
`messageCount = 3` with exactly the 3 parsed messages, replies `PONG` to
the keepalive, and never raises — provided the malformed line does not
contain the marker `PRIVMSG`; a malformed line containing the marker is
additionally counted in `messageCount` (see the counterexample), though
still not parsed. Collection continues past the malformed line either
way (the third message here arrives after it). -/
theorem collect_skips_malformed_line :
    (collect_messages newIRCClient
      [("PING :tmi.twitch.tv", "t0"),
       (":alice!alice@a.tmi.twitch.tv PRIVMSG #chan :hello", "t1"),
       (":bob!bob@b.tmi.twitch.tv PRIVMSG #chan :hi there", "t2"),
       ("garbled partial line", "t3"),
       (":carol!carol@c.tmi.twitch.tv PRIVMSG #chan :yo",
        "t4")]).1.message_count = 3 ∧
    (collect_messages newIRCClient
      [("PING :tmi.twitch.tv", "t0"),
       (":alice!alice@a.tmi.twitch.tv PRIVMSG #chan :hello", "t1"),
       (":bob!bob@b.tmi.twitch.tv PRIVMSG #chan :hi there", "t2"),
       ("garbled partial line", "t3"),
       (":carol!carol@c.tmi.twitch.tv PRIVMSG #chan :yo",
        "t4")]).1.messages =
      [{ username := "alice", message := "hello", timestamp := "t1" },
       { username := "bob", message := "hi there", timestamp := "t2" },
       { username := "carol", message := "yo", timestamp := "t4" }] ∧
    (collect_messages newIRCClient
      [("PING :tmi.twitch.tv", "t0"),
       (":alice!alice@a.tmi.twitch.tv PRIVMSG #chan :hello", "t1"),
       (":bob!bob@b.tmi.twitch.tv PRIVMSG #chan :hi there", "t2"),
       ("garbled partial line", "t3"),
       (":carol!carol@c.tmi.twitch.tv PRIVMSG #chan :yo",
        "t4")]).2 = ["PONG\r\n"] := by
  decide

/-- Counterexample to C9 as stated: `__init__` creates `self.messages`
and `self.message_count` once per client and `collect_messages` never
resets them, so a second `Collect` call on the same client returns the
first call's message again — `messageCount = 2` and both messages,
though the second call's stream carried only one. -/
theorem collect_buffer_carries_over :
    (collect_messages
      (collect_messages newIRCClient
        [(":alice!alice@a.tmi.twitch.tv PRIVMSG #chan :one", "t1")]).1
      [(":bob!bob@b.tmi.twitch.tv PRIVMSG #chan :two",
        "t2")]).1.message_count = 2 ∧
    (collect_messages
      (collect_messages newIRCClient
        [(":alice!alice@a.tmi.twitch.tv PRIVMSG #chan :one", "t1")]).1
      [(":bob!bob@b.tmi.twitch.tv PRIVMSG #chan :two",
        "t2")]).1.messages =
      [{ username := "alice", message := "one", timestamp := "t1" },
       { username := "bob", message := "two", timestamp := "t2" }] := by
  decide

/-- C9 (amended): the message buffer and count are per-client state
accumulated across `Collect` calls, not per-call: a `Collect` call
returns the client's prior messages followed by exactly the messages
harvested during that call (what a freshly constructed client would
return for the same stream), and its count is the prior count plus this
call's harvest. Per-call scoping therefore holds only for a fresh
client — which `collect_twitch_data` guarantees by constructing a new
`TwitchIRCClient` for every collection cycle. -/
theorem collect_messages_accumulates (st : IRCClientState)
    (chunks : List (String × String)) :
    (collect_messages st chunks).1.message_count =
      st.message_count +
        (collect_messages newIRCClient chunks).1.message_count ∧
    (collect_messages st chunks).1.messages =
      st.messages ++ (collect_messages newIRCClient chunks).1.messages := by
  have hd := collect_state_delta chunks st
  exact ⟨by rw [hd], by rw [hd]⟩

end SocialMediaAnalytics
